import Mathlib

/-!
Verification of the draft-analysis pipeline (`src/draft_analysis.py`).

The pipeline scrapes two tables (a draft table and a per-game season-stats
table), normalizes player names, computes a composite score, inner-joins the
two tables on the normalized name, and filters/aggregates the merged rows.
This file embeds those pure computations and proves properties about them.

Missing table cells (pandas `NaN`) are modelled as `none`; numeric cells are
rationals; a table is a column-name list plus rows of optional string cells.
-/

unseal Rat.mul Rat.inv Rat.add Rat.sub

namespace DraftAnalysis

/-- Python `\s` whitespace characters (`str.strip` default set). -/
def pyWs (c : Char) : Bool :=
  c == ' ' || c == '\t' || c == '\n' || c == '\r' || c == '\x0b' || c == '\x0c'

/-- Drop leading whitespace (left part of Python `str.strip`). -/
def ltrim (l : List Char) : List Char := l.dropWhile pyWs

/-- Drop trailing whitespace (right part of Python `str.strip`). -/
def rtrim : List Char → List Char
  | [] => []
  | c :: t =>
    let r := rtrim t
    if r.isEmpty && pyWs c then [] else c :: r

/-- Python `str.strip()` on a character list. -/
def trimL (l : List Char) : List Char := rtrim (ltrim l)

/-- Python `str.strip()` on a string. -/
def trimStr (s : String) : String := String.mk (trimL s.data)

/-- Python `str.lower()` (ASCII-faithful model). -/
def lowerL (l : List Char) : List Char := l.map Char.toLower

/-- The generational-suffix alternatives of the regex
`\s+(Jr\.|Sr\.|III|II|IV)\.?$` (source lines 37 and 61). -/
def suffToks : List (List Char) :=
  [['J', 'r', '.'], ['S', 'r', '.'], ['I', 'I', 'I'], ['I', 'I'], ['I', 'V']]

/-- Does the whole suffix `l` match `\s+(Jr\.|Sr\.|III|II|IV)\.?$`?
The `\s+` must stop exactly at the token (tokens start with non-whitespace),
so `l` matches iff it is a nonempty whitespace run followed by one token and
an optional extra period, ending the string. -/
def sufMatch (l : List Char) : Bool :=
  let ws := l.takeWhile pyWs
  let rest := l.dropWhile pyWs
  !ws.isEmpty && suffToks.any (fun t => rest == t || rest == t ++ ['.'])

/-- `re.sub(r'\s+(Jr\.|Sr\.|III|II|IV)\.?$', '', l)`: delete the leftmost
(and, being end-anchored, only) match. Scans positions left to right; at the
first position whose whole remaining suffix matches, the suffix is deleted. -/
def stripSuf : List Char → List Char
  | [] => []
  | c :: t => if sufMatch (c :: t) then [] else c :: stripSuf t

/-- The identity-key normalization applied to player names
(source lines 36-37 and 60-61): strip, remove one trailing generational
suffix, strip again. -/
def normNameL (l : List Char) : List Char := trimL (stripSuf (trimL l))

/-- String version of `normNameL`. -/
def normName (s : String) : String := String.mk (normNameL s.data)

/-- Is `pat` an initial segment of the second list? -/
def leadsL : List Char → List Char → Bool
  | [], _ => true
  | _ :: _, [] => false
  | a :: pa, b :: pb => a == b && leadsL pa pb

/-- Does `pat` occur as a contiguous sublist? (Python `in` on strings.) -/
def hasSubL (pat : List Char) : List Char → Bool
  | [] => pat.isEmpty
  | c :: t => leadsL pat (c :: t) || hasSubL pat t

/-- The search test of the dashboard (source lines 117-119):
`term.lower().strip()` occurring as a substring of `name.lower()`. -/
def searchMatches (term name : String) : Bool :=
  hasSubL (trimL (lowerL term.data)) (lowerL name.data)

/-- Value of a digit run (most significant first). -/
def digToNat (l : List Char) : ℕ :=
  l.foldl (fun a c => 10 * a + (c.toNat - 48)) 0

/-- Parse an unsigned decimal numeral `digits` or `digits.digits`
(either side of the dot may be empty, not both). -/
def parseNumCore (l : List Char) : Option ℚ :=
  let ip := l.takeWhile (fun c => c != '.')
  match l.dropWhile (fun c => c != '.') with
  | [] =>
    if !ip.isEmpty && ip.all Char.isDigit then some (digToNat ip) else none
  | _ :: fp =>
    if (!ip.isEmpty || !fp.isEmpty) && ip.all Char.isDigit && fp.all Char.isDigit then
      some ((digToNat ip : ℚ) + (digToNat fp : ℚ) / (10 : ℚ) ^ fp.length)
    else none

/-- Model of `pd.to_numeric(·, errors='coerce')` on one cell text:
optional sign and a decimal numeral, surrounding whitespace ignored;
anything else coerces to missing. -/
def parseNumL (l : List Char) : Option ℚ :=
  match trimL l with
  | '-' :: rest => (parseNumCore rest).map (fun q => -q)
  | '+' :: rest => parseNumCore rest
  | rest => parseNumCore rest

/-- String version of `parseNumL`. -/
def parseNum (s : String) : Option ℚ := parseNumL s.data

/-- `Series.round(2)`: round to two decimal places. -/
def round2 (q : ℚ) : ℚ := ((q * 100 + 1 / 2).floor : ℚ) / 100

/-- A raw scraped table after `read_html`: single-level column names and
rows of optional text cells (`none` = pandas `NaN`). -/
structure RawTable where
  cols : List String
  rows : List (List (Option String))
deriving DecidableEq

/-- Cell of a row at a column index (`none` when the index is out of range). -/
def cellAt (r : List (Option String)) (i : ℕ) : Option String := r.getD i none

/-- `astype(str)` on one cell: pandas renders a missing value as `"nan"`. -/
def strCell : Option String → String
  | some s => s
  | none => "nan"

/-- Index of the first column with the given name (0 when absent; callers
guard with membership). -/
def idxOfCol : List String → String → ℕ
  | [], _ => 0
  | c :: t, name => if c == name then 0 else idxOfCol t name + 1

/-- Number of columns carrying a given label (pandas label selection picks
up every duplicate). -/
def countCol (cols : List String) (name : String) : ℕ :=
  (cols.filter (fun c => c == name)).length

/-- `df.columns` lookup of `fetch_draft_data` (source lines 27-29): use the
named column label when present, else fall back to the label at the
positional index; `none` when the fallback position does not exist (pandas
`IndexError`, which the surrounding `except` turns into a `None` result). -/
def resolveLbl (cols : List String) (name : String) (fb : ℕ) : Option String :=
  if cols.contains name then some name else cols.get? fb

/-- One typed row of the normalized draft table. -/
structure DraftRow where
  pk : Option ℚ
  player : String
  playerClean : String
  tm : Option String
deriving DecidableEq

/-- Build one draft row (source lines 35-37): coerce the pick to numeric,
strip the player name, derive the identity key, keep the raw team cell. -/
def mkDraftRow (pkIdx plIdx tmIdx : ℕ) (r : List (Option String)) : DraftRow :=
  let playerRaw := trimStr (strCell (cellAt r plIdx))
  { pk := (cellAt r pkIdx).bind parseNum
    player := playerRaw
    playerClean := normName playerRaw
    tm := cellAt r tmIdx }

/-- The parse part of `fetch_draft_data` (source lines 24-39): resolve the
three column labels; `df[[pk_col, player_col, tm_col]]` then selects every
column matching each label, so the rename `df.columns = ['Pk','Player','Tm']`
(line 32) raises `ValueError` — hence `None` — unless the three selections
total exactly three columns (each chosen label unique in the header). On
success, drop rows whose raw pick cell is missing, type the rows, then drop
rows whose pick failed numeric coercion. -/
def parseDraft (t : RawTable) : Option (List DraftRow) :=
  match resolveLbl t.cols "Pk" 0, resolveLbl t.cols "Player" 1,
      resolveLbl t.cols "Tm" 2 with
  | some pkLbl, some plLbl, some tmLbl =>
    if countCol t.cols pkLbl + countCol t.cols plLbl + countCol t.cols tmLbl
        = 3 then
      some ((((t.rows.filter
        (fun r => (cellAt r (idxOfCol t.cols pkLbl)).isSome)).map
        (mkDraftRow (idxOfCol t.cols pkLbl) (idxOfCol t.cols plLbl)
          (idxOfCol t.cols tmLbl)))).filter (fun d => d.pk.isSome))
    else none
  | _, _, _ => none

/-- One typed row of the normalized season table. -/
structure SeasonRow where
  player : String
  playerClean : String
  pts : Option ℚ
  fgPct : Option ℚ
  tpPct : Option ℚ
  trb : Option ℚ
  ast : Option ℚ
  stl : Option ℚ
  blk : Option ℚ
  mp : Option ℚ
  composite : Option ℚ
deriving DecidableEq

/-- Composite score (source lines 68-74):
`PTS*1.0 + AST*1.5 + TRB*1.2 + STL*3.0 + BLK*3.0`, rounded to 2 decimals.
Pandas arithmetic propagates `NaN`: if any operand is missing the result is
missing (there is no fill with 0 in the source). -/
def compositeOf (p a r s b : Option ℚ) : Option ℚ :=
  match p, a, r, s, b with
  | some p, some a, some r, some s, some b =>
    some (round2 (p * 1 + a * (3 / 2) + r * (6 / 5) + s * 3 + b * 3))
  | _, _, _, _, _ => none

/-- The statistical columns `fetch_season_stats` needs besides `Player`. -/
def seasonStatCols : List String :=
  ["PTS", "FG%", "3P%", "TRB", "AST", "STL", "BLK", "MP"]

/-- Build one season row (source lines 60-74): strip the name, derive the
identity key, coerce each stat column, compute the composite score. -/
def mkSeasonRow (cols : List String) (r : List (Option String)) : SeasonRow :=
  let playerRaw := trimStr (strCell (cellAt r (idxOfCol cols "Player")))
  let stat := fun (name : String) => (cellAt r (idxOfCol cols name)).bind parseNum
  let p := stat "PTS"
  let a := stat "AST"
  let rb := stat "TRB"
  let st := stat "STL"
  let bk := stat "BLK"
  { player := playerRaw
    playerClean := normName playerRaw
    pts := p
    fgPct := stat "FG%"
    tpPct := stat "3P%"
    trb := rb
    ast := a
    stl := st
    blk := bk
    mp := stat "MP"
    composite := compositeOf p a rb st bk }

/-- The parse part of `fetch_season_stats` (source lines 56-76): the player
column and every selected stat column must occur exactly once — a missing
one raises `KeyError` (lines 59, 68, 76) and a duplicated one makes
`df[col]` a frame, so the `.str` accessor (line 60) or `to_numeric`
(line 66) raises; either way the `except` yields `None`. On success, rows
with a missing name are dropped, rows are typed, and rows whose points
failed coercion are dropped. -/
def parseSeason (t : RawTable) : Option (List SeasonRow) :=
  if ("Player" :: seasonStatCols).all (fun c => countCol t.cols c == 1) then
    some (((t.rows.filter
        (fun r => (cellAt r (idxOfCol t.cols "Player")).isSome)).map
      (mkSeasonRow t.cols)).filter (fun s => s.pts.isSome))
  else none

/-- One row of the merged table (source lines 86-90). -/
structure MergedRec where
  pk : Option ℚ
  player : String
  playerStats : String
  playerClean : String
  draftedTeam : Option String
  tm : String
  pts : Option ℚ
  fgPct : Option ℚ
  tpPct : Option ℚ
  trb : Option ℚ
  ast : Option ℚ
  stl : Option ℚ
  blk : Option ℚ
  mp : Option ℚ
  composite : Option ℚ
deriving DecidableEq

/-- Merge one draft row with one matching season row, then apply the
post-merge fixups of lines 87-90: `Player` is reset to the draft-side name,
`Drafted_Team` is the draft-side team, and `Tm` is that team with missing
values replaced by `"N/A"`. `Pk` and `Tm` only exist on the draft side
(the season frame selects no team column), so no suffix is attached. -/
def mkMerged (d : DraftRow) (s : SeasonRow) : MergedRec :=
  { pk := d.pk
    player := d.player
    playerStats := s.player
    playerClean := d.playerClean
    draftedTeam := d.tm
    tm := d.tm.getD "N/A"
    pts := s.pts
    fgPct := s.fgPct
    tpPct := s.tpPct
    trb := s.trb
    ast := s.ast
    stl := s.stl
    blk := s.blk
    mp := s.mp
    composite := s.composite }

/-- `draft_df.merge(season_df, on='Player_Clean', how='inner')`
(source line 86): every draft row is paired with every season row sharing
its identity key, so duplicate keys on the season side fan out. -/
def mergeRecs : List DraftRow → List SeasonRow → List MergedRec
  | [], _ => []
  | d :: ds, ss =>
    ((ss.filter (fun s => s.playerClean == d.playerClean)).map (mkMerged d))
      ++ mergeRecs ds ss

/-- The minutes filter (source line 114): `MP >= min_minutes`; a missing
`MP` compares false in pandas and the row is dropped. -/
def minutesPred (minM : ℚ) (r : MergedRec) : Bool :=
  match r.mp with
  | some v => decide (minM ≤ v)
  | none => false

/-- The search filter (source lines 116-119), evaluated on the merged
`Player` column. -/
def searchPred (term : String) (r : MergedRec) : Bool :=
  searchMatches term r.player

/-- The dashboard filter pipeline (source lines 114-120): minutes threshold
first, then — only when the search box is nonempty — the substring search. -/
def filterRecs (rs : List MergedRec) (minM : ℚ) (term : String) :
    List MergedRec :=
  let m := rs.filter (minutesPred minM)
  if term = "" then m else m.filter (searchPred term)

/-- The `(Pk, metric)` pairs pandas `DataFrame.corr` actually uses: rows
where either value is missing are dropped pairwise. -/
def validPairs (rs : List MergedRec) (f : MergedRec → Option ℚ) :
    List (ℚ × ℚ) :=
  rs.filterMap (fun r =>
    match r.pk, f r with
    | some x, some y => some (x, y)
    | _, _ => none)

/-- Pearson correlation coefficient as `DataFrame.corr` computes it;
`none` models the `NaN` result when a variance is zero (in particular for
fewer than two usable pairs). -/
noncomputable def pearsonCorr (ps : List (ℚ × ℚ)) : Option ℝ :=
  let n : ℚ := ps.length
  let mx : ℚ := (ps.map Prod.fst).sum / n
  let my : ℚ := (ps.map Prod.snd).sum / n
  let sxx : ℚ := (ps.map (fun p => (p.1 - mx) ^ 2)).sum
  let syy : ℚ := (ps.map (fun p => (p.2 - my) ^ 2)).sum
  let sxy : ℚ := (ps.map (fun p => (p.1 - mx) * (p.2 - my))).sum
  if sxx = 0 ∨ syy = 0 then none
  else some ((sxy : ℝ) / Real.sqrt ((sxx : ℝ) * (syy : ℝ)))

/-- The correlation displayed by the dashboard (source lines 126-130):
computed only when at least one row passed the filters (`none` outside that
branch, where the page shows a warning instead); `0` when exactly one row
remains; pandas Pearson correlation otherwise (inner `none` = `NaN`). -/
noncomputable def dashCorr (rs : List MergedRec) (f : MergedRec → Option ℚ) :
    Option (Option ℝ) :=
  if 1 ≤ rs.length then
    some (if 1 < rs.length then pearsonCorr (validPairs rs f) else some 0)
  else none

/-! ### Concrete fixtures -/

/-- A one-row draft table. -/
def tDraftEx : RawTable :=
  { cols := ["Pk", "Player", "Tm"]
    rows := [[some "1", some "Al Ex", some "XX"]] }

/-- The draft row `tDraftEx` parses to. -/
def dEx : DraftRow :=
  { pk := some 1, player := "Al Ex", playerClean := "Al Ex", tm := some "XX" }

/-- A one-row season table matching `tDraftEx` by name. -/
def tSeasonEx : RawTable :=
  { cols := ["Player", "PTS", "FG%", "3P%", "TRB", "AST", "STL", "BLK", "MP"]
    rows := [[some "Al Ex", some "10", some "0.5", some "0.4", some "2",
      some "3", some "1", some "1", some "25"]] }

/-- The season row `tSeasonEx` parses to
(`10 + 3*1.5 + 2*1.2 + 1*3 + 1*3 = 22.9`). -/
def sEx : SeasonRow :=
  { player := "Al Ex", playerClean := "Al Ex", pts := some 10,
    fgPct := some (1 / 2), tpPct := some (2 / 5), trb := some 2,
    ast := some 3, stl := some 1, blk := some 1, mp := some 25,
    composite := some (229 / 10) }

/-- A standalone draft record for join properties. -/
def dJoin : DraftRow :=
  { pk := some 1, player := "A Smith Jr.", playerClean := "A Smith",
    tm := some "XX" }

/-- A season record whose identity key matches `dJoin`. -/
def sJoin1 : SeasonRow :=
  { player := "A Smith", playerClean := "A Smith", pts := some 10,
    fgPct := none, tpPct := none, trb := some 1, ast := some 1,
    stl := some 1, blk := some 1, mp := some 20,
    composite := some (187 / 10) }

/-- A second, distinct season record with the same identity key. -/
def sJoin2 : SeasonRow :=
  { player := "A Smith", playerClean := "A Smith", pts := some 5,
    fgPct := none, tpPct := none, trb := some 1, ast := some 1,
    stl := some 1, blk := some 1, mp := some 20,
    composite := some (137 / 10) }

/-- A one-row season table whose `AST` cell is missing. -/
def tSeasonGap : RawTable :=
  { cols := ["Player", "PTS", "FG%", "3P%", "TRB", "AST", "STL", "BLK", "MP"]
    rows := [[some "B Gap", some "10", some "0.5", some "0.4", some "2",
      none, some "1", some "1", some "25"]] }

/-- The season row `tSeasonGap` parses to: points usable, assists missing,
composite missing (`NaN` propagates). -/
def sGap : SeasonRow :=
  { player := "B Gap", playerClean := "B Gap", pts := some 10,
    fgPct := some (1 / 2), tpPct := some (2 / 5), trb := some 2,
    ast := none, stl := some 1, blk := some 1, mp := some 25,
    composite := none }

/-- The season table carrying the worked example of the composite-score
formula: `points=20, assists=5, rebounds=8, steals=2, blocks=1`. -/
def tSeasonFormula : RawTable :=
  { cols := ["Player", "PTS", "FG%", "3P%", "TRB", "AST", "STL", "BLK", "MP"]
    rows := [[some "X Ample", some "20", some "0.5", some "0.4", some "8",
      some "5", some "2", some "1", some "30"]] }

/-- The season row `tSeasonFormula` parses to:
`20*1.0 + 5*1.5 + 8*1.2 + 2*3.0 + 1*3.0 = 46.1`. -/
def sFormula : SeasonRow :=
  { player := "X Ample", playerClean := "X Ample", pts := some 20,
    fgPct := some (1 / 2), tpPct := some (2 / 5), trb := some 8,
    ast := some 5, stl := some 2, blk := some 1, mp := some 30,
    composite := some (461 / 10) }

/-! ### Helper lemmas -/

theorem ltrim_idem (l : List Char) : ltrim (ltrim l) = ltrim l := by
  induction l with
  | nil => rfl
  | cons c t ih =>
    by_cases hc : pyWs c <;> simp [ltrim, List.dropWhile_cons, hc] at ih ⊢
    exact ih

theorem rtrim_idem (l : List Char) : rtrim (rtrim l) = rtrim l := by
  induction l with
  | nil => rfl
  | cons c t ih =>
    by_cases h : ((rtrim t).isEmpty && pyWs c) = true
    · have h0 : rtrim (c :: t) = [] := by
        simp only [rtrim]
        rw [if_pos h]
      rw [h0]
      rfl
    · have hce : ((rtrim t).isEmpty && pyWs c) = false := by
        simpa using h
      have h1 : rtrim (c :: t) = c :: rtrim t := by
        simp only [rtrim]
        rw [if_neg (by simp [hce])]
      rw [h1]
      have hce2 : ((rtrim (rtrim t)).isEmpty && pyWs c) = false := by
        rw [ih]; exact hce
      simp only [rtrim]
      rw [if_neg (by simp [hce2]), ih]

theorem ltrim_rtrim (m : List Char) (h : ltrim m = m) :
    ltrim (rtrim m) = rtrim m := by
  cases m with
  | nil => rfl
  | cons c t =>
    have hc : pyWs c = false := by
      by_contra hcc
      simp only [Bool.not_eq_false] at hcc
      simp only [ltrim, List.dropWhile_cons, hcc, if_pos] at h
      have := congrArg List.length h
      have hle := (List.dropWhile_sublist (l := t) pyWs).length_le
      simp at this
      omega
    have h1 : rtrim (c :: t) = c :: rtrim t := by
      simp [rtrim, hc]
    rw [h1]
    simp [ltrim, List.dropWhile_cons, hc]

theorem trimL_idem (l : List Char) : trimL (trimL l) = trimL l := by
  unfold trimL
  rw [ltrim_rtrim (ltrim l) (ltrim_idem l), rtrim_idem]

theorem trimL_normNameL (l : List Char) :
    trimL (normNameL l) = normNameL l := by
  unfold normNameL
  exact trimL_idem _

theorem filter_key_len_le_one (ss : List SeasonRow) (k : String)
    (h : (ss.map SeasonRow.playerClean).Nodup) :
    (ss.filter (fun s => s.playerClean == k)).length ≤ 1 := by
  induction ss with
  | nil => simp
  | cons s t ih =>
    simp only [List.map_cons, List.nodup_cons] at h
    by_cases hk : s.playerClean == k
    · have hkk : s.playerClean = k := by simpa using hk
      have hnil : t.filter (fun x => x.playerClean == k) = [] := by
        rw [List.filter_eq_nil_iff]
        intro x hx
        simp only [beq_iff_eq]
        intro hxk
        exact h.1 (by exact List.mem_map.mpr ⟨x, hx, by rw [hxk, hkk]⟩)
      simp [List.filter_cons, hk, hnil]
    · simp only [List.filter_cons, hk, if_neg, Bool.false_eq_true,
        not_false_iff]
      exact ih h.2

theorem mem_mergeRecs {ds : List DraftRow} {ss : List SeasonRow}
    {m : MergedRec} :
    m ∈ mergeRecs ds ss ↔
      ∃ d ∈ ds, ∃ s ∈ ss, s.playerClean = d.playerClean ∧ m = mkMerged d s := by
  induction ds with
  | nil => simp [mergeRecs]
  | cons d ds ih =>
    simp only [mergeRecs, List.mem_append, List.mem_map, List.mem_filter,
      beq_iff_eq, ih, List.mem_cons]
    constructor
    · rintro (⟨s, ⟨hs, hkey⟩, rfl⟩ | ⟨d', hd', s, hs, hkey, rfl⟩)
      · exact ⟨d, Or.inl rfl, s, hs, hkey, rfl⟩
      · exact ⟨d', Or.inr hd', s, hs, hkey, rfl⟩
    · rintro ⟨d', (rfl | hd'), s, hs, hkey, rfl⟩
      · exact Or.inl ⟨s, ⟨hs, hkey⟩, rfl⟩
      · exact Or.inr ⟨d', hd', s, hs, hkey, rfl⟩

theorem length_mergeRecs_le (ds : List DraftRow) (ss : List SeasonRow)
    (h : (ss.map SeasonRow.playerClean).Nodup) :
    (mergeRecs ds ss).length ≤ ds.length := by
  induction ds with
  | nil => simp [mergeRecs]
  | cons d ds ih =>
    simp only [mergeRecs, List.length_append, List.length_map,
      List.length_cons]
    have := filter_key_len_le_one ss d.playerClean h
    omega

/-! ### Claim C1: join cardinality -/

/-- C1 (counterexample). The claim that the join never produces more than
one `MergedRec` per `DraftRow` is false: pandas `merge` fans out, so a
single draft record paired with two season records sharing its identity key
yields two merged records. -/
theorem C1_join_fans_out :
    (mergeRecs [dJoin] [sJoin1, sJoin2]).length = 2 := by decide

/-- C1 (amended). When the identity keys of the season set are pairwise
distinct, each draft record matches at most one season record, and the join
produces at most `|D|` merged records. -/
theorem C1_join_bounded_when_keys_unique (ds : List DraftRow)
    (ss : List SeasonRow) (h : (ss.map SeasonRow.playerClean).Nodup) :
    (∀ d : DraftRow,
      (ss.filter (fun s => s.playerClean == d.playerClean)).length ≤ 1) ∧
    (mergeRecs ds ss).length ≤ ds.length :=
  ⟨fun d => filter_key_len_le_one ss d.playerClean h,
   length_mergeRecs_le ds ss h⟩

/-- C1 (witness): the amended bound at a concrete input. -/
theorem C1_join_bounded_witness :
    (([sJoin1].filter
      (fun s => s.playerClean == dJoin.playerClean)).length ≤ 1) ∧
    (mergeRecs [dJoin] [sJoin1]).length ≤ 1 := by
  have h := C1_join_bounded_when_keys_unique [dJoin] [sJoin1] (by decide)
  exact ⟨h.1 dJoin, h.2⟩

/-! ### Claim C2: composite score and missing operands -/

/-- `compositeOf` is missing whenever one of the non-points operands is. -/
theorem compositeOf_none (p a r s b : Option ℚ)
    (h : a = none ∨ r = none ∨ s = none ∨ b = none) :
    compositeOf p a r s b = none := by
  cases p <;> cases a <;> cases r <;> cases s <;> cases b <;>
    simp [compositeOf] at h ⊢

/-- Every parsed season row computes its composite from its own stats. -/
theorem parseSeason_composite (t : RawTable) (ss : List SeasonRow)
    (h : parseSeason t = some ss) (r : SeasonRow) (hr : r ∈ ss) :
    r.pts.isSome ∧
      r.composite = compositeOf r.pts r.ast r.trb r.stl r.blk := by
  unfold parseSeason at h
  split at h
  · rw [Option.some.injEq] at h
    subst h
    rw [List.mem_filter] at hr
    obtain ⟨hmem, hpts⟩ := hr
    rw [List.mem_map] at hmem
    obtain ⟨raw, _, rfl⟩ := hmem
    exact ⟨hpts, rfl⟩
  · cases h

/-- C2 (counterexample). A season row with usable points but a missing
assists cell is kept, yet its composite score is missing — `NaN` propagates
through the sum instead of the missing operand being treated as `0`. -/
theorem C2_missing_operand_gives_missing_score :
    parseSeason tSeasonGap = some [sGap] ∧
      sGap.pts = some 10 ∧ sGap.composite = none := by decide

/-- C2 (amended). For every parsed season row, points are present; the
composite score is missing whenever any of assists, rebounds, steals or
blocks is missing; and when all operands are present the composite equals
the rounded weighted sum `PTS*1 + AST*1.5 + TRB*1.2 + STL*3 + BLK*3`. -/
theorem C2_composite_requires_all_operands (t : RawTable)
    (ss : List SeasonRow) (h : parseSeason t = some ss) (r : SeasonRow)
    (hr : r ∈ ss) :
    r.pts.isSome ∧
    ((r.ast = none ∨ r.trb = none ∨ r.stl = none ∨ r.blk = none) →
      r.composite = none) ∧
    (∀ p a rb st b : ℚ, r.pts = some p → r.ast = some a → r.trb = some rb →
      r.stl = some st → r.blk = some b →
      r.composite =
        some (round2 (p * 1 + a * (3 / 2) + rb * (6 / 5) + st * 3 + b * 3))) := by
  obtain ⟨hpts, hcomp⟩ := parseSeason_composite t ss h r hr
  refine ⟨hpts, ?_, ?_⟩
  · intro hmiss
    rw [hcomp]
    exact compositeOf_none _ _ _ _ _ hmiss
  · intro p a rb st b hp ha hrb hst hb
    rw [hcomp, hp, ha, hrb, hst, hb]
    rfl

/-- C2 (witness): the amended statement at a concrete input — the row of
`tSeasonGap` has a missing composite because its assists are missing. -/
theorem C2_composite_witness : sGap.composite = none :=
  (C2_composite_requires_all_operands tSeasonGap [sGap] (by decide) sGap
    (by decide)).2.1 (Or.inl rfl)

/-! ### Claim C3: the worked example of the formula -/

/-- C3 (counterexample). On the spec's worked example
(`points=20, assists=5, rebounds=8, steals=2, blocks=1`) the pipeline does
not produce `43.10`. -/
theorem C3_worked_example_not_43_10 :
    parseSeason tSeasonFormula = some [sFormula] ∧
      sFormula.composite ≠ some (431 / 10) := by decide

/-- C3 (amended). On that input the composite score is `46.10`:
`20*1.0 + 5*1.5 + 8*1.2 + 2*3.0 + 1*3.0 = 46.1`, unchanged by rounding. -/
theorem C3_worked_example_46_10 :
    parseSeason tSeasonFormula = some [sFormula] ∧
      sFormula.composite = some (461 / 10) := by decide

/-! ### Claim C4: idempotence of the name normalization -/

/-- C4 (counterexample). The regex strips only one trailing suffix token
per application, so normalization is not idempotent: a name ending in two
stacked suffixes loses one per pass. -/
theorem C4_normalize_not_idempotent :
    normName (normName "A Jr. Jr.") ≠ normName "A Jr. Jr." := by decide

/-- C4 (amended). Normalization is idempotent on every string whose
normalized form carries no further whitespace-preceded trailing suffix
token (equivalently, one application reaches a fixed point of the suffix
stripper); it fails only on names with stacked generational suffixes. -/
theorem C4_normalize_idempotent_when_no_residual_suffix (s : String)
    (h : stripSuf (normNameL s.data) = normNameL s.data) :
    normName (normName s) = normName s := by
  unfold normName
  have : normNameL (normNameL s.data) = normNameL s.data := by
    calc normNameL (normNameL s.data)
        = trimL (stripSuf (trimL (normNameL s.data))) := rfl
      _ = trimL (stripSuf (normNameL s.data)) := by rw [trimL_normNameL]
      _ = trimL (normNameL s.data) := by rw [h]
      _ = normNameL s.data := trimL_normNameL _
  rw [this]

/-- C4 (witness): the amended statement at a concrete input. -/
theorem C4_normalize_idempotent_witness :
    normName (normName "John Smith Jr.") = normName "John Smith Jr." :=
  C4_normalize_idempotent_when_no_residual_suffix "John Smith Jr." (by decide)

/-! ### Claim C5: merged records inherit the draft-side fields -/

/-- C5. Every merged record comes from a draft record whose pick, team and
display name it carries unmodified: `pk` and `draftedTeam` are the draft
record's, the displayed `player` is the draft-side spelling, and the `tm`
column is the drafted team with a missing value shown as `"N/A"`; none of
these is taken from the season table. -/
theorem C5_merged_inherits_draft_fields (ds : List DraftRow)
    (ss : List SeasonRow) (m : MergedRec) (h : m ∈ mergeRecs ds ss) :
    ∃ d ∈ ds, m.pk = d.pk ∧ m.draftedTeam = d.tm ∧ m.player = d.player ∧
      m.tm = d.tm.getD "N/A" := by
  obtain ⟨d, hd, s, _, _, rfl⟩ := mem_mergeRecs.mp h
  exact ⟨d, hd, rfl, rfl, rfl, rfl⟩

/-- C5 (witness): the inheritance at a concrete merged record. -/
theorem C5_merged_inherits_witness :
    ∃ d ∈ [dJoin], (mkMerged dJoin sJoin1).pk = d.pk ∧
      (mkMerged dJoin sJoin1).draftedTeam = d.tm ∧
      (mkMerged dJoin sJoin1).player = d.player ∧
      (mkMerged dJoin sJoin1).tm = d.tm.getD "N/A" :=
  C5_merged_inherits_draft_fields [dJoin] [sJoin1] (mkMerged dJoin sJoin1)
    (by decide)

/-! ### Claim C6: draft-parse failure conditions -/

/-- `resolveLbl` fails exactly when the name is absent and the positional
fallback is out of range. -/
theorem resolveLbl_eq_none (cols : List String) (name : String) (fb : ℕ) :
    resolveLbl cols name fb = none ↔ name ∉ cols ∧ cols.length ≤ fb := by
  unfold resolveLbl
  split
  · rename_i hcon
    simp only [List.contains] at hcon
    rw [List.elem_iff] at hcon
    simp [hcon]
  · rename_i hcon
    simp only [List.contains] at hcon
    rw [Bool.not_eq_true, ← Bool.not_eq_true, List.elem_iff] at hcon
    simp [List.get?_eq_none, hcon]

/-- A duplicated required header makes the draft parse fail: the label
`"Pk"` selects both matching columns, the three labels select four columns
in total, and the three-name rename of line 32 raises. -/
theorem parseDraft_dup_header_fails :
    parseDraft { cols := ["Pk", "Pk", "Player", "Tm"], rows := [] }
      = none := by decide

/-- A duplicated required header makes the season parse fail: `df['PTS']`
is then a two-column frame and `to_numeric` (line 66) raises. -/
theorem parseSeason_dup_header_fails :
    parseSeason { cols := ["Player", "PTS", "PTS", "FG%", "3P%", "TRB",
      "AST", "STL", "BLK", "MP"], rows := [] } = none := by decide

/-- C6 (counterexample). A zero-row table with the three named columns
parses successfully to an empty record list — the parser does not fail on
zero rows, contradicting the claimed failure condition. -/
theorem C6_zero_rows_no_error :
    parseDraft { cols := ["Pk", "Player", "Tm"], rows := [] } = some [] := by
  decide

/-- C6 (amended). The draft parser fails exactly when either (a) some
required column is unresolvable — its name is absent and its positional
fallback (0 for pick, 1 for player, 2 for team) is out of range — or
(b) the three resolved labels select more than three columns because a
chosen label is duplicated in the header, making the three-name rename of
line 32 fail. Row count is irrelevant: tables with resolvable, uniquely
selected columns always parse, malformed rows being dropped individually. -/
theorem C6_draft_parse_error_iff (t : RawTable) :
    parseDraft t = none ↔
      (("Pk" : String) ∉ t.cols ∧ t.cols.length ≤ 0) ∨
      (("Player" : String) ∉ t.cols ∧ t.cols.length ≤ 1) ∨
      (("Tm" : String) ∉ t.cols ∧ t.cols.length ≤ 2) ∨
      (∃ a b c : String, resolveLbl t.cols "Pk" 0 = some a ∧
        resolveLbl t.cols "Player" 1 = some b ∧
        resolveLbl t.cols "Tm" 2 = some c ∧
        countCol t.cols a + countCol t.cols b + countCol t.cols c ≠ 3) := by
  cases hPk : resolveLbl t.cols "Pk" 0 with
  | none =>
    simp only [parseDraft, hPk]
    simp only [true_iff]
    exact Or.inl ((resolveLbl_eq_none _ _ _).mp hPk)
  | some a =>
    cases hPl : resolveLbl t.cols "Player" 1 with
    | none =>
      simp only [parseDraft, hPk, hPl]
      simp only [true_iff]
      exact Or.inr (Or.inl ((resolveLbl_eq_none _ _ _).mp hPl))
    | some b =>
      cases hTm : resolveLbl t.cols "Tm" 2 with
      | none =>
        simp only [parseDraft, hPk, hPl, hTm]
        simp only [true_iff]
        exact Or.inr (Or.inr (Or.inl ((resolveLbl_eq_none _ _ _).mp hTm)))
      | some c =>
        by_cases hw :
          countCol t.cols a + countCol t.cols b + countCol t.cols c = 3
        · simp only [parseDraft, hPk, hPl, hTm, if_pos hw]
          simp only [reduceCtorEq, false_iff]
          rintro (hc | hc | hc | ⟨a', b', c', ha', hb', hc', hw'⟩)
          · rw [(resolveLbl_eq_none _ _ _).mpr hc] at hPk
            cases hPk
          · rw [(resolveLbl_eq_none _ _ _).mpr hc] at hPl
            cases hPl
          · rw [(resolveLbl_eq_none _ _ _).mpr hc] at hTm
            cases hTm
          · rw [Option.some.injEq] at ha' hb' hc'
            subst ha'
            subst hb'
            subst hc'
            exact hw' hw
        · simp only [parseDraft, hPk, hPl, hTm, if_neg hw]
          simp only [true_iff]
          exact Or.inr (Or.inr (Or.inr ⟨a, b, c, rfl, rfl, rfl, hw⟩))

/-! ### Claim C7: correlation at degenerate lengths -/

/-- C7 (counterexample). With zero records the dashboard computes no
correlation at all (it shows a warning instead), rather than the claimed
value 0. -/
theorem C7_no_correlation_for_empty :
    dashCorr [] MergedRec.pts ≠ some (some 0) := by
  simp [dashCorr]

/-- C7 (amended). The displayed correlation is computed only when at least
one record remains: undefined for zero records, `0` for exactly one, and
the pandas Pearson coefficient of pick and the metric (over pairwise
non-missing values, `NaN` when a variance vanishes) for two or more. -/
theorem C7_dashboard_correlation_cases (rs : List MergedRec)
    (f : MergedRec → Option ℚ) :
    dashCorr rs f =
      if rs.length = 0 then none
      else if rs.length = 1 then some (some 0)
      else some (pearsonCorr (validPairs rs f)) := by
  match rs with
  | [] => simp [dashCorr]
  | [a] => simp [dashCorr]
  | a :: b :: t => simp [dashCorr, Nat.succ_le, Nat.lt_succ_iff]

/-! ### Claim C8: suffix with an extra trailing period -/

/-- C8. The pattern's optional trailing period (`\.?`) makes the stripper
also remove a suffix followed by one extra period. -/
theorem C8_double_period_suffix_stripped :
    normName "John Smith Jr.." = "John Smith" := by decide

/-! ### Claim C9: the search runs on the draft-side name -/

/-- C9. Every merged record's displayed `player` is the draft-table
spelling (suffix retained), and the search predicate evaluates exactly the
case-insensitive substring test on that draft-side name. -/
theorem C9_search_on_draft_name (ds : List DraftRow) (ss : List SeasonRow)
    (term : String) (m : MergedRec) (h : m ∈ mergeRecs ds ss) :
    ∃ d ∈ ds, m.player = d.player ∧
      searchPred term m = searchMatches term d.player := by
  obtain ⟨d, hd, s, _, _, rfl⟩ := mem_mergeRecs.mp h
  exact ⟨d, hd, rfl, rfl⟩

/-- C9 (witness): the search test at a concrete merged record. -/
theorem C9_search_on_draft_name_witness :
    ∃ d ∈ [dJoin], (mkMerged dJoin sJoin1).player = d.player ∧
      searchPred "smith" (mkMerged dJoin sJoin1) =
        searchMatches "smith" d.player :=
  C9_search_on_draft_name [dJoin] [sJoin1] "smith" (mkMerged dJoin sJoin1)
    (by decide)

/-! ### Claim C10: merged records have a pick and points -/

/-- C10. Because the draft parser drops rows whose pick fails numeric
coercion and the season parser drops rows without a points value, every
merged record has a present pick and present points. -/
theorem C10_merged_pick_and_points_present (t1 t2 : RawTable)
    (ds : List DraftRow) (ss : List SeasonRow)
    (h1 : parseDraft t1 = some ds) (h2 : parseSeason t2 = some ss)
    (m : MergedRec) (hm : m ∈ mergeRecs ds ss) :
    m.pk.isSome ∧ m.pts.isSome := by
  obtain ⟨d, hd, s, hs, _, rfl⟩ := mem_mergeRecs.mp hm
  constructor
  · show d.pk.isSome
    unfold parseDraft at h1
    split at h1
    · split at h1
      · rw [Option.some.injEq] at h1
        subst h1
        exact (List.mem_filter.mp hd).2
      · cases h1
    · cases h1
  · show s.pts.isSome
    unfold parseSeason at h2
    split at h2
    · rw [Option.some.injEq] at h2
      subst h2
      exact (List.mem_filter.mp hs).2
    · cases h2

/-- C10 (witness): pick and points presence at a concrete pipeline run. -/
theorem C10_merged_pick_and_points_witness :
    (mkMerged dEx sEx).pk.isSome ∧ (mkMerged dEx sEx).pts.isSome :=
  C10_merged_pick_and_points_present tDraftEx tSeasonEx [dEx] [sEx]
    (by decide) (by decide) (mkMerged dEx sEx) (by decide)

end DraftAnalysis
